import Mathlib

/-!
# vk_raytracer: the driver `main` of `ray_tracing_final/main.cpp`

A shallow embedding of the application entry point and of `renderUI`.

The driver is a straight-line orchestration of calls into `HelloVulkan`, GLFW, ImGui and
Vulkan.  The embedding keeps

* a log of every side-effecting call, in program order (`State.log`);
* the variables `main` and `renderUI` read or write themselves: `clearColor`, `useRaytracer`,
  the light push constants, `m_maxFrames`, `m_pcRay.maxDepth`, `m_objModel.size()` and
  `m_instances`.

Every value that comes back from a collaborator (`glfwInit`, `glfwVulkanSupported`,
`glfwWindowShouldClose`, `isMinimized`, `showGui`, the return value of each ImGui widget, the
random transforms) is an input of the model.  Pure queries (`glfwVulkanSupported`,
`glfwWindowShouldClose`, `isMinimized`, `showGui`, `exePath`, `findFile`, `getCurFrame`,
`getCommandBuffers`, `getSize`, `getRenderPass`, `getFramebuffers`, `getDevice`, `GetIO`,
`GetDrawData`, `system_clock::now`) and the set-up of the random number engine are not logged.
Float values are carried as exact rationals: the driver only stores and forwards them.

`HelloVulkan` itself (`hello_vulkan.h`, `hello_vulkan.cpp`) is not part of the source at hand.
What its five `loadModel` calls leave in the members the driver touches is an input
(`Env.loaded`); its other methods appear as logged calls.
-/

namespace VkRaytracer

/-! ## Data model -/

/-- The `glm::vec3` of the light position. -/
structure Vec3 where
  x : Rat
  y : Rat
  z : Rat
  deriving DecidableEq, Repr

/-- The `glm::vec4` used for the clear colour. -/
structure Vec4 where
  x : Rat
  y : Rat
  z : Rat
  w : Rat
  deriving DecidableEq, Repr

/-- A `glm::mat4` instance transform, as computed from the random draws; its entries are
floating-point values that the driver never inspects. -/
structure Mat4 where
  entries : List Rat
  deriving DecidableEq, Repr

/-- One loaded model (`ObjModel`); its buffers are opaque to the driver. -/
structure ObjModel where
  handle : Nat
  deriving DecidableEq, Repr

/-- The record `HelloVulkan::ObjInstance`: the index of a model and a world transform.
`objIndex` holds the value the driver assigns to it from the `int` local `wusonIndex`. -/
structure ObjInstance where
  transform : Mat4
  objIndex : Int
  deriving DecidableEq, Repr

/-- The fields of `m_pcRaster` that `renderUI` edits. -/
structure PushConstantRaster where
  lightPosition : Vec3
  lightIntensity : Rat
  lightType : Int
  deriving DecidableEq, Repr

/-- The field of `m_pcRay` that the "Max Depth" slider edits. -/
structure PushConstantRay where
  maxDepth : Int
  deriving DecidableEq, Repr

/-- The members of `HelloVulkan` that the driver touches directly. -/
structure HelloVulkan where
  m_objModel : List ObjModel
  m_instances : List ObjInstance
  m_pcRaster : PushConstantRaster
  m_pcRay : PushConstantRay
  m_maxFrames : Int
  deriving DecidableEq, Repr

/-- The `.obj` files named in the five `loadModel` calls. -/
inductive ModelFile
  | wuson
  | sphere
  | plane
  | medievalBuilding
  | cubeMulti
  deriving DecidableEq, Repr

/-- The two render passes a `vkCmdBeginRenderPass` of the driver can begin. -/
inductive RenderPass
  | offscreen
  | post
  deriving DecidableEq, Repr

/-- The side-effecting calls of `main` and `renderUI` that take no argument the model
keeps. -/
inductive Call
  | glfwSetErrorCallback
  | glfwInit
  | glfwWindowHint
  | glfwCreateWindow
  | cameraSetWindowSize
  | cameraSetLookat
  | printfVulkanNotSupported
  | nvpSystem
  | setDefaultSearchPaths
  | glfwGetRequiredInstanceExtensions
  | contextCreateInfo
  | contextSetVersion
  | addInstanceLayerMonitor
  | addInstanceExtensionDebugUtils
  | addDeviceExtensionSwapchain
  | addDeviceExtensionAccelerationStructure
  | addDeviceExtensionRayTracingPipeline
  | addDeviceExtensionDeferredHostOperations
  | context
  | initInstance
  | getCompatibleDevices
  | initDevice
  | helloVulkan
  | getVkSurface
  | setGCTQueueWithPresent
  | setup
  | createSwapchain
  | createDepthBuffer
  | createRenderPass
  | createFrameBuffers
  | initGUI
  | createOffscreenRender
  | createDescriptorSetLayout
  | createGraphicsPipeline
  | createUniformBuffer
  | createObjDescriptionBuffer
  | updateDescriptorSet
  | initRayTracing
  | createBottomLevelAS
  | createTopLevelAS
  | createRtDescriptorSet
  | createRtPipeline
  | createRtShaderBindingTable
  | createPostDescriptor
  | createPostPipeline
  | updatePostDescriptorSet
  | setupGlfwCallbacks
  | imguiImplGlfwInitForVulkan
  | glfwPollEvents
  | imguiImplGlfwNewFrame
  | imguiNewFrame
  | panelBegin
  | colorEdit3
  | checkbox
  | resetFrame
  | cameraWidget
  | collapsingHeader
  | radioButtonPoint
  | sameLine
  | radioButtonInfinite
  | sliderFloat3Position
  | sliderFloatIntensity
  | sliderIntMaxFrames
  | sliderIntMaxDepth
  | text
  | controlInfo
  | panelEnd
  | prepareFrame
  | vkBeginCommandBuffer
  | updateUniformBuffer
  | rasterize
  | vkCmdEndRenderPass
  | drawPost
  | imguiRender
  | imguiRenderDrawData
  | vkEndCommandBuffer
  | submitFrame
  | vkDeviceWaitIdle
  | destroyResources
  | destroy
  | vkctxDeinit
  | glfwDestroyWindow
  | glfwTerminate
  deriving DecidableEq, Repr

/-- One logged call: a plain call, or one of the four whose argument the model keeps. -/
inductive Event
  | call (c : Call)
  | addRequiredInstanceExtension (ext_id : Nat)
  | loadModel (file : ModelFile)
  | raytrace (clearColor : Vec4)
  | vkCmdBeginRenderPass (pass : RenderPass)
  deriving DecidableEq, Repr

/-- What the widgets under the "Light" header returned in one frame.  A radio button returns
`true` when it is pressed and then stores its own value in `lightType`; a slider returns
`true` when it changed the value, which is then the one given here. -/
structure LightInput where
  point : Bool
  infinite : Bool
  position : Option Vec3
  intensity : Option Rat
  deriving DecidableEq, Repr

/-- What the widgets of `renderUI` returned in one call.  `light` is `none` when the
collapsing header is closed: its widgets are then not evaluated at all. -/
structure UIInput where
  camera : Bool
  light : Option LightInput
  maxFrames : Option Int
  deriving DecidableEq, Repr

/-- What the widgets of the panel returned in one frame in which `showGui()` is true.
`ColorEdit3` returns `true` when it changed the first three floats of the colour, to the
values given here.  The checkbox returns `true` when it is pressed and then flips the flag it
is bound to. -/
structure GuiInput where
  colorEdit : Option Vec3
  checkbox : Bool
  ui : UIInput
  maxDepth : Option Int
  deriving DecidableEq, Repr

/-- What the collaborators answered in one iteration of the main loop: the window is
minimized, or it is not and `showGui()` is false (`none`) or true with the widget results. -/
inductive FrameInput
  | minimized
  | visible (gui : Option GuiInput)
  deriving DecidableEq, Repr

/-- The state the driver works on: the call log, the `HelloVulkan` members it touches and the
two locals of `main` that live across iterations. -/
structure State where
  log : List Event
  helloVk : HelloVulkan
  clearColor : Vec4
  useRaytracer : Bool
  topLevelInstanceCount : Option Nat
  deriving DecidableEq, Repr

/-- Everything the environment decides before the main loop: the answers of `glfwInit` and
`glfwVulkanSupported`, the number `count` of required instance extensions, the number of
compatible devices, the members of `helloVk` as the five `loadModel` calls leave them, and the
matrix `mat` computed from the random draws in iteration `n` of the instance loop. -/
structure Env where
  glfwInitOk : Bool
  vulkanSupported : Bool
  count : Nat
  compatibleDevices : Nat
  loaded : HelloVulkan
  transform : Nat → Mat4

/-- The state of the start-up section, from the construction of `helloVk` to the declaration
of `clearColor` and `useRaytracer`. -/
structure Setup where
  log : List Event
  helloVk : HelloVulkan
  topLevelInstanceCount : Option Nat

/-- How `main` ends: with a return code, or in a failed `assert`. -/
inductive Exit
  | code (n : Int)
  | assertionFailed
  deriving DecidableEq, Repr

/-- The observable result of one run of `main`. -/
structure Outcome where
  exit : Exit
  log : List Event
  deriving DecidableEq, Repr

/-! ## Operations -/

/-- Record one call. -/
def State.emit (s : State) (e : Event) : State :=
  { s with log := s.log ++ [e] }

/-- Record one call without argument. -/
def State.call (s : State) (c : Call) : State :=
  s.emit (.call c)

/-- Record several calls in order. -/
def State.emitAll (s : State) (es : List Event) : State :=
  { s with log := s.log ++ es }

/-- Store through `&pc.lightType`. -/
def State.setLightType (s : State) (v : Int) : State :=
  { s with helloVk := { s.helloVk with m_pcRaster := { s.helloVk.m_pcRaster with lightType := v } } }

/-- Store through `&pc.lightPosition.x`. -/
def State.setLightPosition (s : State) (v : Vec3) : State :=
  { s with helloVk := { s.helloVk with m_pcRaster := { s.helloVk.m_pcRaster with lightPosition := v } } }

/-- Store through `&pc.lightIntensity`. -/
def State.setLightIntensity (s : State) (v : Rat) : State :=
  { s with helloVk := { s.helloVk with m_pcRaster := { s.helloVk.m_pcRaster with lightIntensity := v } } }

/-- Store through `&helloVk.m_maxFrames`. -/
def State.setMaxFrames (s : State) (v : Int) : State :=
  { s with helloVk := { s.helloVk with m_maxFrames := v } }

/-- Store through `&helloVk.m_pcRay.maxDepth`. -/
def State.setMaxDepth (s : State) (v : Int) : State :=
  { s with helloVk := { s.helloVk with m_pcRay := { s.helloVk.m_pcRay with maxDepth := v } } }

/-- The body of `if(ImGui::CollapsingHeader("Light"))` in `renderUI`, on the running
`changed` flag. -/
def lightControls (l : LightInput) (s : State) (changed : Bool) : State × Bool :=
  let s := s.call .radioButtonPoint
  let s := if l.point then s.setLightType 0 else s
  let changed := changed || l.point
  let s := s.call .sameLine
  let s := s.call .radioButtonInfinite
  let s := if l.infinite then s.setLightType 1 else s
  let changed := changed || l.infinite
  let s := s.call .sliderFloat3Position
  let s := match l.position with
    | some v => s.setLightPosition v
    | none => s
  let changed := changed || l.position.isSome
  let s := s.call .sliderFloatIntensity
  let s := match l.intensity with
    | some v => s.setLightIntensity v
    | none => s
  let changed := changed || l.intensity.isSome
  (s, changed)

/-- The function `renderUI`. -/
def renderUI (u : UIInput) (s : State) : State :=
  let changed := false
  let s := s.call .cameraWidget
  let changed := changed || u.camera
  let s := s.call .collapsingHeader
  let r := match u.light with
    | some l => lightControls l s changed
    | none => (s, changed)
  let s := r.1
  let changed := r.2
  let s := s.call .sliderIntMaxFrames
  let s := match u.maxFrames with
    | some v => s.setMaxFrames v
    | none => s
  let changed := changed || u.maxFrames.isSome
  if changed then s.call .resetFrame else s

/-- The body of `if(helloVk.showGui())` in the main loop. -/
def guiPanel (g : GuiInput) (s : State) : State :=
  let s := s.call .panelBegin
  let changed := false
  let s := s.call .colorEdit3
  let s := match g.colorEdit with
    | some c => { s with clearColor := { x := c.x, y := c.y, z := c.z, w := s.clearColor.w } }
    | none => s
  let changed := changed || g.colorEdit.isSome
  let s := s.call .checkbox
  let s := if g.checkbox then { s with useRaytracer := !s.useRaytracer } else s
  let changed := changed || g.checkbox
  let s := if changed then s.call .resetFrame else s
  let s := renderUI g.ui s
  let s := s.call .sliderIntMaxDepth
  let s := match g.maxDepth with
    | some v => s.setMaxDepth v
    | none => s
  let s := s.call .text
  let s := s.call .controlInfo
  s.call .panelEnd

/-- The part of a loop iteration from `prepareFrame` to `submitFrame`. -/
def renderFrame (s : State) : State :=
  let s := s.call .prepareFrame
  let s := s.call .vkBeginCommandBuffer
  let s := s.call .updateUniformBuffer
  let s :=
    if s.useRaytracer then
      s.emit (.raytrace s.clearColor)
    else
      let s := s.emit (.vkCmdBeginRenderPass .offscreen)
      let s := s.call .rasterize
      s.call .vkCmdEndRenderPass
  let s := s.emit (.vkCmdBeginRenderPass .post)
  let s := s.call .drawPost
  let s := s.call .imguiRender
  let s := s.call .imguiRenderDrawData
  let s := s.call .vkCmdEndRenderPass
  let s := s.call .vkEndCommandBuffer
  s.call .submitFrame

/-- One iteration of the main loop. -/
def frame (f : FrameInput) (s : State) : State :=
  let s := s.call .glfwPollEvents
  match f with
  | .minimized => s
  | .visible gui =>
    let s := s.call .imguiImplGlfwNewFrame
    let s := s.call .imguiNewFrame
    let s := match gui with
      | some g => guiPanel g s
      | none => s
    renderFrame s

/-- The main loop, run over the iterations that happen before `glfwWindowShouldClose`
answers true. -/
def mainLoop : List FrameInput → State → State
  | [], s => s
  | f :: fs, s => mainLoop fs (frame f s)

/-! ## Start-up -/

/-- The value of `size() - 1` in `size_t` arithmetic (64 bits). -/
def sizeMinusOne (size : Nat) : Nat :=
  (size % 2 ^ 64 + (2 ^ 64 - 1)) % 2 ^ 64

/-- The conversion `static_cast<int>` of a `size_t` value (two's complement, 32 bits). -/
def castInt (u : Nat) : Int :=
  if u % 2 ^ 32 < 2 ^ 31 then ((u % 2 ^ 32 : Nat) : Int) else ((u % 2 ^ 32 : Nat) : Int) - 2 ^ 32

/-- The local `wusonIndex` of `main`: `static_cast<int>(helloVk.m_objModel.size() - 1)`. -/
def wusonIndex (vk : HelloVulkan) : Int :=
  castInt (sizeMinusOne vk.m_objModel.length)

/-- The body of the instance loop for the counter value `n`: one `push_back`. -/
def pushInstance (env : Env) (index : Int) (vk : HelloVulkan) (n : Nat) : HelloVulkan :=
  let inst : ObjInstance := { objIndex := index, transform := env.transform n }
  { vk with m_instances := vk.m_instances ++ [inst] }

/-- The loop `for(int n = 0; n < 2000; ++n)` that appends the generated instances. -/
def generateInstances (env : Env) (vk : HelloVulkan) : HelloVulkan :=
  let index := wusonIndex vk
  (List.range 2000).foldl (pushInstance env index) vk

/-- The calls from `glfwWindowHint` to the `glfwVulkanSupported` test. -/
def windowCalls : List Event :=
  [.call .glfwWindowHint, .call .glfwCreateWindow, .call .cameraSetWindowSize,
   .call .cameraSetLookat]

/-- The calls that fill `contextInfo` and create the Vulkan instance, up to
`getCompatibleDevices`. -/
def contextCalls (env : Env) : List Event :=
  [.call .nvpSystem, .call .setDefaultSearchPaths, .call .glfwGetRequiredInstanceExtensions,
   .call .contextCreateInfo, .call .contextSetVersion]
  ++ (List.range env.count).map Event.addRequiredInstanceExtension
  ++ [.call .addInstanceLayerMonitor, .call .addInstanceExtensionDebugUtils,
      .call .addDeviceExtensionSwapchain, .call .addDeviceExtensionAccelerationStructure,
      .call .addDeviceExtensionRayTracingPipeline,
      .call .addDeviceExtensionDeferredHostOperations,
      .call .context, .call .initInstance, .call .getCompatibleDevices]

/-- The calls from `initDevice` to `initGUI`. -/
def deviceCalls : List Event :=
  [.call .initDevice, .call .helloVulkan, .call .getVkSurface, .call .setGCTQueueWithPresent,
   .call .setup,
   .call .createSwapchain, .call .createDepthBuffer, .call .createRenderPass,
   .call .createFrameBuffers, .call .initGUI]

/-- The five `loadModel` calls. -/
def loadCalls : List Event :=
  [.loadModel .wuson, .loadModel .sphere, .loadModel .plane, .loadModel .medievalBuilding,
   .loadModel .cubeMulti]

/-- The raster set-up calls between the instance loop and the ray-tracing section. -/
def rasterCalls : List Event :=
  [.call .createOffscreenRender, .call .createDescriptorSetLayout,
   .call .createGraphicsPipeline, .call .createUniformBuffer,
   .call .createObjDescriptionBuffer, .call .updateDescriptorSet]

/-- The program up to the end of the instance loop, for a run that passed the three start-up
tests. -/
def loadScene (env : Env) : Setup :=
  { log := [.call .glfwSetErrorCallback, .call .glfwInit] ++ windowCalls ++ contextCalls env
      ++ deviceCalls ++ loadCalls
    helloVk := generateInstances env env.loaded
    topLevelInstanceCount := none }

/-- The program up to the call of `createTopLevelAS`, that call excluded. -/
def beforeTopLevelAS (env : Env) : Setup :=
  let b := loadScene env
  { b with log := b.log ++ rasterCalls ++ [.call .initRayTracing, .call .createBottomLevelAS] }

/-- Modelled from the spec: `HelloVulkan::createTopLevelAS` is not part of the source at hand.
By the specification a top-level build over an instance list reports as its instance count the
length of that list; the call is logged and the count of the structure it builds is recorded. -/
def createTopLevelAS (b : Setup) : Setup :=
  { b with
    log := b.log ++ [.call .createTopLevelAS]
    topLevelInstanceCount := some b.helloVk.m_instances.length }

/-- The calls after `createTopLevelAS` up to `updatePostDescriptorSet`. -/
def pipelineCalls : List Event :=
  [.call .createRtDescriptorSet, .call .createRtPipeline, .call .createRtShaderBindingTable,
   .call .createPostDescriptor, .call .createPostPipeline, .call .updatePostDescriptorSet]

/-- The state in which the main loop is entered: the start-up section completed, the locals
`clearColor` and `useRaytracer` declared, the GLFW callbacks installed. -/
def startup (env : Env) : State :=
  let b := createTopLevelAS (beforeTopLevelAS env)
  let s : State :=
    { log := b.log ++ pipelineCalls
      helloVk := b.helloVk
      topLevelInstanceCount := b.topLevelInstanceCount
      clearColor := { x := 1, y := 1, z := 1, w := 1 }
      useRaytracer := true }
  let s := s.call .setupGlfwCallbacks
  s.call .imguiImplGlfwInitForVulkan

/-- The calls of the cleanup section. -/
def cleanupCalls : List Event :=
  [.call .vkDeviceWaitIdle, .call .destroyResources, .call .destroy, .call .vkctxDeinit,
   .call .glfwDestroyWindow, .call .glfwTerminate]

/-- The cleanup section of `main`. -/
def cleanup (s : State) : State :=
  s.emitAll cleanupCalls

/-- The function `main`, run in the environment `env` with the loop iterations `frames`.  The
`assert` on `glfwVulkanSupported()` repeats the test passed just before and cannot fail; the
`assert` on `compatibleDevices` ends the run when no device is compatible. -/
def main (env : Env) (frames : List FrameInput) : Outcome :=
  let log : List Event := [.call .glfwSetErrorCallback, .call .glfwInit]
  if !env.glfwInitOk then
    { exit := .code 1, log := log }
  else
    let log := log ++ windowCalls
    if !env.vulkanSupported then
      { exit := .code 1, log := log ++ [.call .printfVulkanNotSupported] }
    else
      let log := log ++ contextCalls env
      if env.compatibleDevices = 0 then
        { exit := .assertionFailed, log := log }
      else
        let s := startup env
        let s := mainLoop frames s
        let s := cleanup s
        { exit := .code 0, log := s.log }

/-! ## Reading the log -/

/-- Some control under the "Light" header returned `true`. -/
def LightInput.reported (l : LightInput) : Bool :=
  l.point || l.infinite || l.position.isSome || l.intensity.isSome

/-- Some light control returned `true` in this call of `renderUI`; a closed header evaluates
none of them. -/
def UIInput.lightReported (u : UIInput) : Bool :=
  match u.light with
  | some l => l.reported
  | none => false

/-- Some control of `renderUI` returned `true`: the camera widget, a light control or the
"Max Frames" slider. -/
def UIInput.reported (u : UIInput) : Bool :=
  u.camera || u.lightReported || u.maxFrames.isSome

/-- The call is a scene pass: `raytrace` or `rasterize`. -/
def Event.isScenePass : Event → Bool
  | .raytrace _ => true
  | .call .rasterize => true
  | _ => false

/-- The call is a `raytrace`. -/
def Event.isRaytrace : Event → Bool
  | .raytrace _ => true
  | _ => false

/-- The call belongs to the recording or submission of a frame: anything from `prepareFrame`
to `submitFrame`. -/
def Event.isFrameWork : Event → Bool
  | .call .prepareFrame => true
  | .call .vkBeginCommandBuffer => true
  | .call .updateUniformBuffer => true
  | .raytrace _ => true
  | .vkCmdBeginRenderPass _ => true
  | .call .rasterize => true
  | .call .vkCmdEndRenderPass => true
  | .call .drawPost => true
  | .call .imguiRender => true
  | .call .imguiRenderDrawData => true
  | .call .vkEndCommandBuffer => true
  | .call .submitFrame => true
  | _ => false

/-- The number of `resetFrame` calls in a log. -/
def resets (log : List Event) : Nat :=
  log.count (.call .resetFrame)

/-- The widget calls of `renderUI`, the final `resetFrame` excluded. -/
def uiWidgetCalls (u : UIInput) : List Event :=
  [.call .cameraWidget, .call .collapsingHeader]
  ++ (if u.light.isSome then
        [.call .radioButtonPoint, .call .sameLine, .call .radioButtonInfinite,
         .call .sliderFloat3Position, .call .sliderFloatIntensity]
      else [])
  ++ [.call .sliderIntMaxFrames]

/-- The calls of one `renderUI`. -/
def uiCalls (u : UIInput) : List Event :=
  uiWidgetCalls u ++ (if u.reported then [.call .resetFrame] else [])

/-- The calls of the panel body in one frame. -/
def panelCalls (g : GuiInput) : List Event :=
  [.call .panelBegin, .call .colorEdit3, .call .checkbox]
  ++ (if g.colorEdit.isSome || g.checkbox then [.call .resetFrame] else [])
  ++ uiCalls g.ui
  ++ [.call .sliderIntMaxDepth, .call .text, .call .controlInfo, .call .panelEnd]

/-- The scene pass recorded for a mode and a clear colour. -/
def scenePassCalls (useRaytracer : Bool) (clearColor : Vec4) : List Event :=
  if useRaytracer then [.raytrace clearColor]
  else [.vkCmdBeginRenderPass .offscreen, .call .rasterize, .call .vkCmdEndRenderPass]

/-- The calls from `prepareFrame` to `submitFrame` for a mode and a clear colour. -/
def renderCalls (useRaytracer : Bool) (clearColor : Vec4) : List Event :=
  [.call .prepareFrame, .call .vkBeginCommandBuffer, .call .updateUniformBuffer]
  ++ scenePassCalls useRaytracer clearColor
  ++ [.vkCmdBeginRenderPass .post, .call .drawPost, .call .imguiRender,
      .call .imguiRenderDrawData, .call .vkCmdEndRenderPass, .call .vkEndCommandBuffer,
      .call .submitFrame]

/-- The mode flag after the panel of a frame: a pressed checkbox flips it. -/
def modeAfter (gui : Option GuiInput) (useRaytracer : Bool) : Bool :=
  match gui with
  | some g => if g.checkbox then !useRaytracer else useRaytracer
  | none => useRaytracer

/-- The clear colour after the panel of a frame. -/
def colorAfter (gui : Option GuiInput) (clearColor : Vec4) : Vec4 :=
  match gui with
  | some g =>
    match g.colorEdit with
    | some c => { x := c.x, y := c.y, z := c.z, w := clearColor.w }
    | none => clearColor
  | none => clearColor

/-- The calls of the user-interface part of a frame that is not minimized. -/
def guiCalls (gui : Option GuiInput) : List Event :=
  [.call .imguiImplGlfwNewFrame, .call .imguiNewFrame]
  ++ (match gui with
      | some g => panelCalls g
      | none => [])

/-- The calls of one iteration of the main loop started in state `s`. -/
def frameCalls (f : FrameInput) (s : State) : List Event :=
  match f with
  | .minimized => [.call .glfwPollEvents]
  | .visible gui =>
    [.call .glfwPollEvents] ++ guiCalls gui
      ++ renderCalls (modeAfter gui s.useRaytracer) (colorAfter gui s.clearColor)

/-- The call is one of the four that build what a ray dispatch needs. -/
def Event.isRtSetup : Event → Bool
  | .call .createBottomLevelAS => true
  | .call .createTopLevelAS => true
  | .call .createRtPipeline => true
  | .call .createRtShaderBindingTable => true
  | _ => false

/-- The call is one of the cleanup section. -/
def Event.isCleanup : Event → Bool
  | .call .vkDeviceWaitIdle => true
  | .call .destroyResources => true
  | .call .destroy => true
  | .call .vkctxDeinit => true
  | .call .glfwDestroyWindow => true
  | .call .glfwTerminate => true
  | _ => false

/-- The call belongs to the user-interface part of a frame: the two new-frame calls, a widget
of the panel, or `resetFrame`. -/
def Event.isUiCall : Event → Bool
  | .call .imguiImplGlfwNewFrame => true
  | .call .imguiNewFrame => true
  | .call .panelBegin => true
  | .call .colorEdit3 => true
  | .call .checkbox => true
  | .call .resetFrame => true
  | .call .cameraWidget => true
  | .call .collapsingHeader => true
  | .call .radioButtonPoint => true
  | .call .sameLine => true
  | .call .radioButtonInfinite => true
  | .call .sliderFloat3Position => true
  | .call .sliderFloatIntensity => true
  | .call .sliderIntMaxFrames => true
  | .call .sliderIntMaxDepth => true
  | .call .text => true
  | .call .controlInfo => true
  | .call .panelEnd => true
  | _ => false

/-- The call is neither a build call of the ray-tracing set-up nor a cleanup call. -/
def Event.isPlain (e : Event) : Bool :=
  !e.isRtSetup && !e.isCleanup

/-- No control of the frame reports a change. -/
def FrameInput.quiet : FrameInput → Bool
  | .minimized => true
  | .visible none => true
  | .visible (some g) =>
    !g.checkbox && g.colorEdit.isNone && !g.ui.reported && g.maxDepth.isNone

/-- The checkbox is pressed and no other control of the panel reports a change. -/
def GuiInput.onlyCheckbox (g : GuiInput) : Bool :=
  g.checkbox && g.colorEdit.isNone && !g.ui.reported && g.maxDepth.isNone

/-! ## Sample inputs -/

/-- A `HelloVulkan` as five successful `loadModel` calls leave it: five models, one instance
of each. -/
def sampleVk : HelloVulkan :=
  { m_objModel := [⟨0⟩, ⟨1⟩, ⟨2⟩, ⟨3⟩, ⟨4⟩]
    m_instances := [⟨⟨[]⟩, 0⟩, ⟨⟨[]⟩, 1⟩, ⟨⟨[]⟩, 2⟩, ⟨⟨[]⟩, 3⟩, ⟨⟨[]⟩, 4⟩]
    m_pcRaster := { lightPosition := ⟨10, 15, 8⟩, lightIntensity := 100, lightType := 0 }
    m_pcRay := { maxDepth := 10 }
    m_maxFrames := 10 }

/-- An environment in which start-up succeeds. -/
def sampleEnv : Env :=
  { glfwInitOk := true
    vulkanSupported := true
    count := 2
    compatibleDevices := 1
    loaded := sampleVk
    transform := fun n => ⟨[(n : Rat)]⟩ }

/-- A state inside the main loop, in ray-tracing mode. -/
def sampleState : State :=
  { log := []
    helloVk := sampleVk
    clearColor := ⟨1, 1, 1, 1⟩
    useRaytracer := true
    topLevelInstanceCount := some 5 }

/-- A call of `renderUI` in which no control reports a change, the header being closed. -/
def quietUI : UIInput :=
  { camera := false, light := none, maxFrames := none }

/-- A frame in which only the "Ray Tracer mode" checkbox is pressed. -/
def toggleGui : GuiInput :=
  { colorEdit := none, checkbox := true, ui := quietUI, maxDepth := none }

/-- A frame in which only the "Max Depth" slider reports a change, to the value 5. -/
def depthGui : GuiInput :=
  { colorEdit := none, checkbox := false, ui := quietUI, maxDepth := some 5 }

/-- A frame in which only the "Max Frames" slider reports a change, to the value 20. -/
def maxFramesGui : GuiInput :=
  { colorEdit := none, checkbox := false
    ui := { camera := false, light := none, maxFrames := some 20 }, maxDepth := none }

/-- A frame in which the panel is shown and nothing is touched. -/
def idleGui : GuiInput :=
  { colorEdit := none, checkbox := false, ui := quietUI, maxDepth := none }

/-- The calls of the run of `sampleEnv` with one frame without GUI, up to its `raytrace`. -/
def sampleBefore : List Event :=
  (startup sampleEnv).log
    ++ [.call .glfwPollEvents, .call .imguiImplGlfwNewFrame, .call .imguiNewFrame,
        .call .prepareFrame, .call .vkBeginCommandBuffer, .call .updateUniformBuffer]

/-- The calls of the run of `sampleEnv` with one frame without GUI, after its `raytrace`. -/
def sampleAfter : List Event :=
  [.vkCmdBeginRenderPass .post, .call .drawPost, .call .imguiRender,
   .call .imguiRenderDrawData, .call .vkCmdEndRenderPass, .call .vkEndCommandBuffer,
   .call .submitFrame] ++ cleanupCalls

/-! ## Lemmas on single steps -/

theorem lightControls_log (l : LightInput) (s : State) (changed : Bool) :
    (lightControls l s changed).1.log
      = s.log ++ [.call .radioButtonPoint, .call .sameLine, .call .radioButtonInfinite,
          .call .sliderFloat3Position, .call .sliderFloatIntensity] := by
  obtain ⟨point, infinite, position, intensity⟩ := l
  cases point <;> cases infinite <;> cases position <;> cases intensity <;>
    simp [lightControls, State.call, State.emit, State.setLightType, State.setLightPosition,
      State.setLightIntensity]

theorem lightControls_changed (l : LightInput) (s : State) (changed : Bool) :
    (lightControls l s changed).2 = (changed || l.reported) := by
  simp [lightControls, LightInput.reported, Bool.or_assoc]

theorem lightControls_locals (l : LightInput) (s : State) (changed : Bool) :
    (lightControls l s changed).1.useRaytracer = s.useRaytracer
      ∧ (lightControls l s changed).1.clearColor = s.clearColor
      ∧ (lightControls l s changed).1.topLevelInstanceCount = s.topLevelInstanceCount
      ∧ (lightControls l s changed).1.helloVk.m_instances = s.helloVk.m_instances
      ∧ (lightControls l s changed).1.helloVk.m_objModel = s.helloVk.m_objModel
      ∧ (lightControls l s changed).1.helloVk.m_pcRay = s.helloVk.m_pcRay := by
  obtain ⟨point, infinite, position, intensity⟩ := l
  cases point <;> cases infinite <;> cases position <;> cases intensity <;>
    simp [lightControls, State.call, State.emit, State.setLightType, State.setLightPosition,
      State.setLightIntensity]

set_option linter.unnecessarySeqFocus false in
theorem renderUI_log (u : UIInput) (s : State) :
    (renderUI u s).log = s.log ++ uiCalls u := by
  obtain ⟨camera, light, maxFrames⟩ := u
  cases light <;> cases camera <;> cases maxFrames <;>
    simp [renderUI, uiCalls, uiWidgetCalls, UIInput.reported, UIInput.lightReported,
      State.call, State.emit, State.setMaxFrames, lightControls_log, lightControls_changed,
      apply_ite State.log] <;>
    (split <;> rfl)

theorem renderUI_locals (u : UIInput) (s : State) :
    (renderUI u s).useRaytracer = s.useRaytracer
      ∧ (renderUI u s).clearColor = s.clearColor
      ∧ (renderUI u s).topLevelInstanceCount = s.topLevelInstanceCount
      ∧ (renderUI u s).helloVk.m_instances = s.helloVk.m_instances
      ∧ (renderUI u s).helloVk.m_objModel = s.helloVk.m_objModel
      ∧ (renderUI u s).helloVk.m_pcRay = s.helloVk.m_pcRay := by
  obtain ⟨camera, light, maxFrames⟩ := u
  cases light with
  | none =>
    cases camera <;> cases maxFrames <;>
      simp [renderUI, State.call, State.emit, State.setMaxFrames]
  | some l =>
    cases maxFrames <;>
      simp only [renderUI, State.call, State.emit, State.setMaxFrames] <;>
      split <;> simp [lightControls_locals]

theorem guiPanel_log (g : GuiInput) (s : State) :
    (guiPanel g s).log = s.log ++ panelCalls g := by
  obtain ⟨colorEdit, checkbox, ui, maxDepth⟩ := g
  cases colorEdit <;> cases checkbox <;> cases maxDepth <;>
    simp [guiPanel, panelCalls, State.call, State.emit, State.setMaxDepth, renderUI_log]

theorem guiPanel_locals (g : GuiInput) (s : State) :
    (guiPanel g s).useRaytracer = modeAfter (some g) s.useRaytracer
      ∧ (guiPanel g s).clearColor = colorAfter (some g) s.clearColor
      ∧ (guiPanel g s).topLevelInstanceCount = s.topLevelInstanceCount
      ∧ (guiPanel g s).helloVk.m_instances = s.helloVk.m_instances
      ∧ (guiPanel g s).helloVk.m_objModel = s.helloVk.m_objModel := by
  obtain ⟨colorEdit, checkbox, ui, maxDepth⟩ := g
  cases colorEdit <;> cases checkbox <;> cases maxDepth <;>
    simp [guiPanel, modeAfter, colorAfter, State.call, State.emit, State.setMaxDepth,
      renderUI_locals]

theorem renderFrame_eq (s : State) :
    renderFrame s = { s with log := s.log ++ renderCalls s.useRaytracer s.clearColor } := by
  cases h : s.useRaytracer <;>
    simp [renderFrame, renderCalls, scenePassCalls, State.call, State.emit, h]

theorem frame_minimized (s : State) :
    frame .minimized s = { s with log := s.log ++ [.call .glfwPollEvents] } := by
  simp [frame, State.call, State.emit]

theorem frame_visible_log (gui : Option GuiInput) (s : State) :
    (frame (.visible gui) s).log
      = s.log ++ [.call .glfwPollEvents] ++ guiCalls gui
          ++ renderCalls (modeAfter gui s.useRaytracer) (colorAfter gui s.clearColor) := by
  cases gui with
  | none =>
    simp [frame, renderFrame_eq, guiCalls, modeAfter, colorAfter, State.call, State.emit]
  | some g =>
    simp [frame, renderFrame_eq, guiCalls, State.call, State.emit, guiPanel_log,
      guiPanel_locals]

theorem frame_visible_locals (gui : Option GuiInput) (s : State) :
    (frame (.visible gui) s).useRaytracer = modeAfter gui s.useRaytracer
      ∧ (frame (.visible gui) s).clearColor = colorAfter gui s.clearColor
      ∧ (frame (.visible gui) s).topLevelInstanceCount = s.topLevelInstanceCount
      ∧ (frame (.visible gui) s).helloVk.m_instances = s.helloVk.m_instances
      ∧ (frame (.visible gui) s).helloVk.m_objModel = s.helloVk.m_objModel := by
  cases gui with
  | none =>
    simp [frame, renderFrame_eq, modeAfter, colorAfter, State.call, State.emit]
  | some g =>
    simp [frame, renderFrame_eq, State.call, State.emit, guiPanel_locals]

theorem frame_log (f : FrameInput) (s : State) :
    (frame f s).log = s.log ++ frameCalls f s := by
  cases f with
  | minimized => simp [frame_minimized, frameCalls]
  | visible gui => simp [frame_visible_log, frameCalls]

theorem frame_locals (f : FrameInput) (s : State) :
    (frame f s).topLevelInstanceCount = s.topLevelInstanceCount
      ∧ (frame f s).helloVk.m_instances = s.helloVk.m_instances
      ∧ (frame f s).helloVk.m_objModel = s.helloVk.m_objModel := by
  cases f with
  | minimized => simp [frame_minimized]
  | visible gui =>
    obtain ⟨_, _, h3, h4, h5⟩ := frame_visible_locals gui s
    exact ⟨h3, h4, h5⟩

theorem uiCalls_ui (u : UIInput) : ∀ e ∈ uiCalls u, e.isUiCall = true := by
  intro e he
  simp only [uiCalls, uiWidgetCalls, List.mem_append] at he
  rcases he with ((he | he) | he) | he
  · simp at he
    rcases he with rfl | rfl <;> rfl
  · split at he
    · simp at he
      rcases he with rfl | rfl | rfl | rfl | rfl <;> rfl
    · simp at he
  · simp at he
    subst he
    rfl
  · split at he
    · simp at he
      subst he
      rfl
    · simp at he

theorem panelCalls_ui (g : GuiInput) : ∀ e ∈ panelCalls g, e.isUiCall = true := by
  intro e he
  simp only [panelCalls, List.mem_append] at he
  rcases he with ((he | he) | he) | he
  · simp at he
    rcases he with rfl | rfl | rfl <;> rfl
  · split at he
    · simp at he
      subst he
      rfl
    · simp at he
  · exact uiCalls_ui g.ui e he
  · simp at he
    rcases he with rfl | rfl | rfl | rfl <;> rfl

theorem renderCalls_plain (m : Bool) (c : Vec4) : ∀ e ∈ renderCalls m c, e.isPlain = true := by
  intro e he
  cases m <;> simp [renderCalls, scenePassCalls] at he <;>
    rcases he with rfl | rfl | rfl | rfl | rfl | rfl | rfl | rfl | rfl | rfl | rfl | rfl | rfl <;>
    rfl

theorem guiCalls_ui (gui : Option GuiInput) : ∀ e ∈ guiCalls gui, e.isUiCall = true := by
  intro e he
  simp only [guiCalls, List.mem_append] at he
  rcases he with he | he
  · simp at he
    rcases he with rfl | rfl <;> rfl
  · cases gui with
    | none => simp at he
    | some g => exact panelCalls_ui g e he

theorem isUiCall_facts (e : Event) (h : e.isUiCall = true) :
    e.isPlain = true ∧ e.isScenePass = false ∧ e.isFrameWork = false ∧ e.isRaytrace = false := by
  cases e with
  | call c => cases c <;> first | exact absurd h (by decide) | exact ⟨rfl, rfl, rfl, rfl⟩
  | addRequiredInstanceExtension n => exact absurd h (by simp [Event.isUiCall])
  | loadModel f => exact absurd h (by simp [Event.isUiCall])
  | raytrace c => exact absurd h (by simp [Event.isUiCall])
  | vkCmdBeginRenderPass p => exact absurd h (by simp [Event.isUiCall])

theorem frameCalls_plain (f : FrameInput) (s : State) :
    ∀ e ∈ frameCalls f s, e.isPlain = true := by
  intro e he
  cases f with
  | minimized =>
    simp [frameCalls] at he
    subst he
    rfl
  | visible gui =>
    simp only [frameCalls, List.mem_append] at he
    rcases he with (he | he) | he
    · simp at he
      subst he
      rfl
    · exact (isUiCall_facts e (guiCalls_ui gui e he)).1
    · exact renderCalls_plain _ _ e he

/-! ## Lemmas on the main loop -/

theorem mainLoop_append (a b : List FrameInput) (s : State) :
    mainLoop (a ++ b) s = mainLoop b (mainLoop a s) := by
  induction a generalizing s with
  | nil => rfl
  | cons f fs ih => simp [mainLoop, ih]

theorem mainLoop_log (frames : List FrameInput) (s : State) :
    ∃ calls, (mainLoop frames s).log = s.log ++ calls ∧ ∀ e ∈ calls, e.isPlain = true := by
  induction frames generalizing s with
  | nil => exact ⟨[], by simp [mainLoop]⟩
  | cons f fs ih =>
    obtain ⟨calls, h1, h2⟩ := ih (frame f s)
    refine ⟨frameCalls f s ++ calls, ?_, ?_⟩
    · simp [mainLoop, h1, frame_log]
    · intro e he
      rcases List.mem_append.mp he with he | he
      · exact frameCalls_plain f s e he
      · exact h2 e he

theorem mainLoop_locals (frames : List FrameInput) (s : State) :
    (mainLoop frames s).topLevelInstanceCount = s.topLevelInstanceCount
      ∧ (mainLoop frames s).helloVk.m_instances = s.helloVk.m_instances
      ∧ (mainLoop frames s).helloVk.m_objModel = s.helloVk.m_objModel := by
  induction frames generalizing s with
  | nil => simp [mainLoop]
  | cons f fs ih =>
    obtain ⟨h1, h2, h3⟩ := ih (frame f s)
    obtain ⟨g1, g2, g3⟩ := frame_locals f s
    exact ⟨by simp [mainLoop, h1, g1], by simp [mainLoop, h2, g2], by simp [mainLoop, h3, g3]⟩

/-! ## The instance loop -/

theorem foldl_pushInstance (env : Env) (index : Int) (ns : List Nat) (vk : HelloVulkan) :
    (ns.foldl (pushInstance env index) vk).m_objModel = vk.m_objModel
      ∧ (ns.foldl (pushInstance env index) vk).m_instances
          = vk.m_instances
              ++ ns.map (fun n => ({ objIndex := index, transform := env.transform n } : ObjInstance)) := by
  induction ns generalizing vk with
  | nil => simp
  | cons n ns ih =>
    obtain ⟨h1, h2⟩ := ih (pushInstance env index vk n)
    constructor
    · rw [List.foldl_cons, h1]
      rfl
    · rw [List.foldl_cons, h2]
      simp [pushInstance]

theorem generateInstances_instances (env : Env) (vk : HelloVulkan) :
    (generateInstances env vk).m_instances
      = vk.m_instances
          ++ (List.range 2000).map
              (fun n => ({ objIndex := wusonIndex vk, transform := env.transform n } : ObjInstance))
    ∧ (generateInstances env vk).m_objModel = vk.m_objModel := by
  obtain ⟨h1, h2⟩ := foldl_pushInstance env (wusonIndex vk) (List.range 2000) vk
  exact ⟨h2, h1⟩

theorem wusonIndex_eq (vk : HelloVulkan) (h1 : 1 ≤ vk.m_objModel.length)
    (h2 : vk.m_objModel.length ≤ 2 ^ 31) :
    wusonIndex vk = (vk.m_objModel.length : Int) - 1 := by
  unfold wusonIndex sizeMinusOne castInt
  generalize vk.m_objModel.length = m at h1 h2
  have e1 : (m % 2 ^ 64 + (2 ^ 64 - 1)) % 2 ^ 64 = m - 1 := by omega
  rw [e1]
  have e2 : (m - 1) % 2 ^ 32 = m - 1 := by omega
  rw [e2]
  have e3 : m - 1 < 2 ^ 31 := by omega
  simp only [e3, if_true]
  omega

/-! ## Counting resets -/

theorem resets_uiCalls (u : UIInput) : resets (uiCalls u) = if u.reported then 1 else 0 := by
  have hw : resets (uiWidgetCalls u) = 0 := by
    cases h : u.light <;> simp [resets, uiWidgetCalls, h]
  unfold uiCalls
  unfold resets at hw ⊢
  rw [List.count_append, hw]
  split <;> simp

theorem resets_append (a b : List Event) : resets (a ++ b) = resets a + resets b := by
  simp [resets, List.count_append]

theorem resets_panelCalls (g : GuiInput) :
    resets (panelCalls g)
      = (if g.colorEdit.isSome || g.checkbox then 1 else 0)
          + (if g.ui.reported then 1 else 0) := by
  unfold panelCalls
  rw [resets_append, resets_append, resets_append, resets_uiCalls]
  have h1 : resets [Event.call Call.panelBegin, .call .colorEdit3, .call .checkbox] = 0 := by
    decide
  have h2 : resets [Event.call Call.sliderIntMaxDepth, .call .text, .call .controlInfo,
      .call .panelEnd] = 0 := by
    decide
  rw [h1, h2]
  split <;> simp [resets]

theorem resets_renderCalls (m : Bool) (c : Vec4) : resets (renderCalls m c) = 0 := by
  cases m <;> simp [resets, renderCalls, scenePassCalls]

theorem resets_guiCalls (gui : Option GuiInput) :
    resets (guiCalls gui)
      = match gui with
        | some g => (if g.colorEdit.isSome || g.checkbox then 1 else 0)
            + (if g.ui.reported then 1 else 0)
        | none => 0 := by
  unfold guiCalls
  rw [resets_append]
  cases gui with
  | none => simp [resets]
  | some g =>
    simp only [resets_panelCalls]
    simp [resets]

theorem renderCalls_raster_noRaytrace (c : Vec4) :
    ∀ e ∈ renderCalls false c, e.isRaytrace = false := by
  intro e he
  simp [renderCalls, scenePassCalls] at he
  rcases he with rfl | rfl | rfl | rfl | rfl | rfl | rfl | rfl | rfl | rfl | rfl | rfl | rfl <;>
    rfl

theorem frameCalls_raster_noRaytrace (f : FrameInput) (s : State)
    (h : (frame f s).useRaytracer = false) :
    ∀ e ∈ frameCalls f s, e.isRaytrace = false := by
  intro e he
  cases f with
  | minimized =>
    simp [frameCalls] at he
    subst he
    rfl
  | visible gui =>
    rw [(frame_visible_locals gui s).1] at h
    simp only [frameCalls, List.mem_append, h] at he
    rcases he with (he | he) | he
    · simp at he
      subst he
      rfl
    · exact (isUiCall_facts e (guiCalls_ui gui e he)).2.2.2
    · exact renderCalls_raster_noRaytrace _ e he

theorem quiet_frame (f : FrameInput) (s : State) (hq : f.quiet = true) :
    (frame f s).useRaytracer = s.useRaytracer ∧ resets (frameCalls f s) = 0 := by
  cases f with
  | minimized => simp [frame_minimized, frameCalls, resets]
  | visible gui =>
    cases gui with
    | none =>
      refine ⟨by simp [(frame_visible_locals none s).1, modeAfter], ?_⟩
      simp only [frameCalls, resets_append, resets_guiCalls, resets_renderCalls]
      simp [resets]
    | some g =>
      simp only [FrameInput.quiet, Bool.and_eq_true, Bool.not_eq_true', Option.isNone_iff_eq_none]
        at hq
      obtain ⟨⟨⟨hc, hcol⟩, hui⟩, _⟩ := hq
      refine ⟨by simp [(frame_visible_locals (some g) s).1, modeAfter, hc], ?_⟩
      simp only [frameCalls, resets_append, resets_guiCalls, resets_renderCalls]
      simp [resets, hc, hcol, hui]

theorem quiet_loop (mid : List FrameInput) (s : State) (hq : ∀ f ∈ mid, f.quiet = true)
    (hm : s.useRaytracer = false) :
    (mainLoop mid s).useRaytracer = false
      ∧ resets (mainLoop mid s).log = resets s.log
      ∧ ∃ calls, (mainLoop mid s).log = s.log ++ calls ∧ ∀ e ∈ calls, e.isRaytrace = false := by
  induction mid generalizing s with
  | nil => exact ⟨hm, rfl, [], by simp [mainLoop]⟩
  | cons f fs ih =>
    have hf := quiet_frame f s (hq f (List.mem_cons_self f fs))
    have hm1 : (frame f s).useRaytracer = false := by rw [hf.1, hm]
    obtain ⟨i1, i2, calls, i3, i4⟩ := ih (frame f s)
      (fun x hx => hq x (List.mem_cons_of_mem f hx)) hm1
    refine ⟨i1, ?_, frameCalls f s ++ calls, ?_, ?_⟩
    · simp only [mainLoop]
      rw [i2, frame_log, resets_append, hf.2]
      rfl
    · simp only [mainLoop]
      rw [i3, frame_log, List.append_assoc]
    · intro e he
      rcases List.mem_append.mp he with he | he
      · exact frameCalls_raster_noRaytrace f s hm1 e he
      · exact i4 e he

theorem toggle_frame (g : GuiInput) (s : State) (h : g.onlyCheckbox = true) :
    (frame (.visible (some g)) s).useRaytracer = (!s.useRaytracer)
      ∧ resets (frame (.visible (some g)) s).log = resets s.log + 1 := by
  simp only [GuiInput.onlyCheckbox, Bool.and_eq_true, Bool.not_eq_true',
    Option.isNone_iff_eq_none] at h
  obtain ⟨⟨⟨hc, hcol⟩, hui⟩, _⟩ := h
  refine ⟨by simp [(frame_visible_locals (some g) s).1, modeAfter, hc], ?_⟩
  rw [frame_log]
  simp only [frameCalls, resets_append, resets_guiCalls, resets_renderCalls]
  simp [resets, hc, hcol, hui]

/-! ## The log of a whole run -/

theorem startup_log (env : Env) :
    (startup env).log
      = [.call .glfwSetErrorCallback, .call .glfwInit] ++ windowCalls ++ contextCalls env
          ++ deviceCalls ++ loadCalls ++ rasterCalls
          ++ [.call .initRayTracing, .call .createBottomLevelAS, .call .createTopLevelAS]
          ++ pipelineCalls ++ [.call .setupGlfwCallbacks, .call .imguiImplGlfwInitForVulkan] := by
  simp [startup, createTopLevelAS, beforeTopLevelAS, loadScene, State.call, State.emit]

theorem contextCalls_filter (env : Env) : (contextCalls env).filter Event.isRtSetup = [] := by
  rw [List.filter_eq_nil_iff]
  intro e he
  simp only [contextCalls, List.mem_append, List.mem_map] at he
  rcases he with (he | ⟨n, _, rfl⟩) | he
  · simp at he
    rcases he with rfl | rfl | rfl | rfl | rfl <;> decide
  · simp [Event.isRtSetup]
  · simp at he
    rcases he with rfl | rfl | rfl | rfl | rfl | rfl | rfl | rfl | rfl <;> decide

theorem contextCalls_facts (env : Env) :
    ∀ e ∈ contextCalls env, e.isRaytrace = false ∧ e.isCleanup = false := by
  intro e he
  simp only [contextCalls, List.mem_append, List.mem_map] at he
  rcases he with (he | ⟨n, _, rfl⟩) | he
  · simp at he
    rcases he with rfl | rfl | rfl | rfl | rfl <;> exact ⟨rfl, rfl⟩
  · exact ⟨rfl, rfl⟩
  · simp at he
    rcases he with rfl | rfl | rfl | rfl | rfl | rfl | rfl | rfl | rfl <;> exact ⟨rfl, rfl⟩

theorem startup_log_filter (env : Env) :
    (startup env).log.filter Event.isRtSetup
      = [.call .createBottomLevelAS, .call .createTopLevelAS, .call .createRtPipeline,
          .call .createRtShaderBindingTable] := by
  rw [startup_log]
  simp only [List.filter_append, contextCalls_filter]
  rfl

theorem startup_log_facts (env : Env) :
    ∀ e ∈ (startup env).log, e.isRaytrace = false ∧ e.isCleanup = false := by
  intro e he
  rw [startup_log] at he
  simp only [List.mem_append] at he
  rcases he with (((((((he | he) | he) | he) | he) | he) | he) | he) | he
  · simp at he
    rcases he with rfl | rfl <;> exact ⟨rfl, rfl⟩
  · simp [windowCalls] at he
    rcases he with rfl | rfl | rfl | rfl <;> exact ⟨rfl, rfl⟩
  · exact contextCalls_facts env e he
  · simp [deviceCalls] at he
    rcases he with rfl | rfl | rfl | rfl | rfl | rfl | rfl | rfl | rfl | rfl <;>
      exact ⟨rfl, rfl⟩
  · simp [loadCalls] at he
    rcases he with rfl | rfl | rfl | rfl | rfl <;> exact ⟨rfl, rfl⟩
  · simp [rasterCalls] at he
    rcases he with rfl | rfl | rfl | rfl | rfl | rfl <;> exact ⟨rfl, rfl⟩
  · simp at he
    rcases he with rfl | rfl | rfl <;> exact ⟨rfl, rfl⟩
  · simp [pipelineCalls] at he
    rcases he with rfl | rfl | rfl | rfl | rfl | rfl <;> exact ⟨rfl, rfl⟩
  · simp at he
    rcases he with rfl | rfl <;> exact ⟨rfl, rfl⟩

theorem isPlain_facts (e : Event) (h : e.isPlain = true) :
    e.isRtSetup = false ∧ e.isCleanup = false := by
  simpa [Event.isPlain] using h

theorem main_success (env : Env) (frames : List FrameInput) (h1 : env.glfwInitOk = true)
    (h2 : env.vulkanSupported = true) (h3 : env.compatibleDevices ≠ 0) :
    (main env frames).exit = .code 0
      ∧ ∃ calls, (main env frames).log = (startup env).log ++ calls ++ cleanupCalls
          ∧ ∀ e ∈ calls, e.isPlain = true := by
  obtain ⟨calls, hc1, hc2⟩ := mainLoop_log frames (startup env)
  refine ⟨by simp [main, h1, h2, h3], calls, ?_, hc2⟩
  simp [main, h1, h2, h3, cleanup, State.emitAll, hc1]

theorem main_failure_log (env : Env) (frames : List FrameInput)
    (h : ¬ (env.glfwInitOk = true ∧ env.vulkanSupported = true ∧ env.compatibleDevices ≠ 0)) :
    (main env frames).exit ≠ .code 0
      ∧ (∀ e ∈ (main env frames).log, e.isRaytrace = false)
      ∧ (main env frames).log.filter Event.isRtSetup = [] := by
  by_cases h1 : env.glfwInitOk = true
  · by_cases h2 : env.vulkanSupported = true
    · have h3 : env.compatibleDevices = 0 := by
        by_contra hc
        exact h ⟨h1, h2, hc⟩
      have hl : (main env frames).log
          = [.call .glfwSetErrorCallback, .call .glfwInit] ++ windowCalls ++ contextCalls env := by
        simp [main, h1, h2, h3]
      refine ⟨by simp [main, h1, h2, h3], ?_, ?_⟩
      · intro e he
        rw [hl] at he
        simp only [List.mem_append] at he
        rcases he with (he | he) | he
        · simp at he
          rcases he with rfl | rfl <;> rfl
        · simp [windowCalls] at he
          rcases he with rfl | rfl | rfl | rfl <;> rfl
        · exact (contextCalls_facts env e he).1
      · rw [hl]
        simp only [List.filter_append, contextCalls_filter]
        rfl
    · have h2f : env.vulkanSupported = false := by simpa using h2
      refine ⟨by simp [main, h1, h2f], ?_, ?_⟩
      · intro e he
        simp [main, h1, h2f, windowCalls] at he
        rcases he with rfl | rfl | rfl | rfl | rfl | rfl | rfl <;> rfl
      · simp [main, h1, h2f, windowCalls]
        decide
  · have h1f : env.glfwInitOk = false := by simpa using h1
    refine ⟨by simp [main, h1f], ?_, ?_⟩
    · intro e he
      simp [main, h1f] at he
      rcases he with rfl | rfl <;> rfl
    · simp [main, h1f]
      decide

/-! ## The claims -/

/-- C1: in an iteration in which the GUI is shown and the "Ray Tracer mode" checkbox reports a
change, `useRaytracer` flips and `resetFrame` is called in that iteration before its scene
pass: the calls of the iteration are `pre`, `resetFrame`, `mid`, the one scene pass (`raytrace`
or `rasterize`), `post`, and no scene pass occurs in `pre`, `mid` or `post`. -/
theorem C1_mode_switch_resets_before_scene_pass (g : GuiInput) (s : State)
    (h : g.checkbox = true) :
    (frame (.visible (some g)) s).useRaytracer = (!s.useRaytracer)
      ∧ ∃ pre mid pass post,
          (frame (.visible (some g)) s).log
              = s.log ++ pre ++ [.call .resetFrame] ++ mid ++ [pass] ++ post
            ∧ pass.isScenePass = true
            ∧ (∀ e ∈ pre ++ mid ++ post, e.isScenePass = false) := by
  have hm : modeAfter (some g) s.useRaytracer = (!s.useRaytracer) := by simp [modeAfter, h]
  refine ⟨by rw [(frame_visible_locals (some g) s).1, hm], ?_⟩
  have hui : ∀ e ∈ uiCalls g.ui, e.isScenePass = false :=
    fun e he => (isUiCall_facts e (uiCalls_ui g.ui e he)).2.1
  rw [frame_visible_log, hm]
  cases hr : s.useRaytracer
  · refine ⟨[.call .glfwPollEvents, .call .imguiImplGlfwNewFrame, .call .imguiNewFrame,
        .call .panelBegin, .call .colorEdit3, .call .checkbox],
      uiCalls g.ui ++ [.call .sliderIntMaxDepth, .call .text, .call .controlInfo,
        .call .panelEnd, .call .prepareFrame, .call .vkBeginCommandBuffer,
        .call .updateUniformBuffer],
      .raytrace (colorAfter (some g) s.clearColor),
      [.vkCmdBeginRenderPass .post, .call .drawPost, .call .imguiRender,
        .call .imguiRenderDrawData, .call .vkCmdEndRenderPass, .call .vkEndCommandBuffer,
        .call .submitFrame], ?_, rfl, ?_⟩
    · simp [guiCalls, panelCalls, renderCalls, scenePassCalls, h]
    · intro e he
      simp only [List.mem_append] at he
      rcases he with (he | he | he) | he
      · simp at he
        rcases he with rfl | rfl | rfl | rfl | rfl | rfl <;> rfl
      · exact hui e he
      · simp at he
        rcases he with rfl | rfl | rfl | rfl | rfl | rfl | rfl <;> rfl
      · simp at he
        rcases he with rfl | rfl | rfl | rfl | rfl | rfl | rfl <;> rfl
  · refine ⟨[.call .glfwPollEvents, .call .imguiImplGlfwNewFrame, .call .imguiNewFrame,
        .call .panelBegin, .call .colorEdit3, .call .checkbox],
      uiCalls g.ui ++ [.call .sliderIntMaxDepth, .call .text, .call .controlInfo,
        .call .panelEnd, .call .prepareFrame, .call .vkBeginCommandBuffer,
        .call .updateUniformBuffer, .vkCmdBeginRenderPass .offscreen],
      .call .rasterize,
      [.call .vkCmdEndRenderPass, .vkCmdBeginRenderPass .post, .call .drawPost,
        .call .imguiRender, .call .imguiRenderDrawData, .call .vkCmdEndRenderPass,
        .call .vkEndCommandBuffer, .call .submitFrame], ?_, rfl, ?_⟩
    · simp [guiCalls, panelCalls, renderCalls, scenePassCalls, h]
    · intro e he
      simp only [List.mem_append] at he
      rcases he with (he | he | he) | he
      · simp at he
        rcases he with rfl | rfl | rfl | rfl | rfl | rfl <;> rfl
      · exact hui e he
      · simp at he
        rcases he with rfl | rfl | rfl | rfl | rfl | rfl | rfl | rfl <;> rfl
      · simp at he
        rcases he with rfl | rfl | rfl | rfl | rfl | rfl | rfl | rfl <;> rfl

/-- C1, at a frame of `sampleState` in which only the checkbox is pressed. -/
theorem C1_witness :
    toggleGui.checkbox = true
      ∧ ((frame (.visible (some toggleGui)) sampleState).useRaytracer = (!sampleState.useRaytracer)
        ∧ ∃ pre mid pass post,
            (frame (.visible (some toggleGui)) sampleState).log
                = sampleState.log ++ pre ++ [.call .resetFrame] ++ mid ++ [pass] ++ post
              ∧ pass.isScenePass = true
              ∧ (∀ e ∈ pre ++ mid ++ post, e.isScenePass = false)) :=
  ⟨rfl, C1_mode_switch_resets_before_scene_pass toggleGui sampleState rfl⟩

/-- C2: the calls of one `renderUI` contain a `resetFrame` whenever the camera widget or a light
control reports a change; they contain one only if the camera widget, a light control or the
"Max Frames" slider reports a change, and then exactly one. -/
theorem C2_renderUI_resets_once_iff_reported (u : UIInput) (s : State) :
    ∃ calls, (renderUI u s).log = s.log ++ calls
      ∧ ((u.camera = true ∨ u.lightReported = true) → 0 < resets calls)
      ∧ (0 < resets calls → u.reported = true)
      ∧ (u.reported = true → resets calls = 1) := by
  refine ⟨uiCalls u, renderUI_log u s, ?_⟩
  rw [resets_uiCalls]
  refine ⟨?_, ?_, ?_⟩
  · intro h
    have : u.reported = true := by
      rcases h with h | h <;> simp [UIInput.reported, h]
    simp [this]
  · intro h
    by_contra hc
    simp [hc] at h
  · intro h
    simp [h]

/-- C3: in a frame of `sampleState` in which the GUI is shown and only the "Max Depth" slider
reports a change, `m_pcRay.maxDepth` goes from 10 to 5 and the iteration calls no `resetFrame`;
the same frame with the "Max Frames" slider edited instead calls it once. -/
theorem C3_max_depth_edit_calls_no_reset :
    sampleState.helloVk.m_pcRay.maxDepth = 10
      ∧ (frame (.visible (some depthGui)) sampleState).helloVk.m_pcRay.maxDepth = 5
      ∧ resets sampleState.log = 0
      ∧ resets (frame (.visible (some depthGui)) sampleState).log = 0
      ∧ resets (frame (.visible (some maxFramesGui)) sampleState).log = 1 := by
  refine ⟨rfl, rfl, rfl, ?_, ?_⟩
  · rw [frame_log]
    simp only [frameCalls, resets_append, resets_guiCalls, resets_renderCalls]
    decide
  · rw [frame_log]
    simp only [frameCalls, resets_append, resets_guiCalls, resets_renderCalls]
    decide

/-- C4: an iteration in which `isMinimized()` is true calls `glfwPollEvents` and nothing else,
leaves `useRaytracer`, `clearColor` and every other variable as they were, and the loop goes
on with the next iteration. -/
theorem C4_minimized_frame_is_skipped (s : State) (rest : List FrameInput) :
    (frame .minimized s).log = s.log ++ [.call .glfwPollEvents]
      ∧ (frame .minimized s).useRaytracer = s.useRaytracer
      ∧ (frame .minimized s).clearColor = s.clearColor
      ∧ (frame .minimized s).helloVk = s.helloVk
      ∧ (frame .minimized s).topLevelInstanceCount = s.topLevelInstanceCount
      ∧ mainLoop (.minimized :: rest) s = mainLoop rest (frame .minimized s) := by
  simp [frame_minimized, mainLoop]

/-- C5: the calls of an iteration that is not minimized are the user-interface calls, none of
which records or submits frame work, followed by `prepareFrame`, `vkBeginCommandBuffer`,
`updateUniformBuffer`, one scene pass (`raytrace` with the clear colour when `useRaytracer` is
true, otherwise the offscreen render pass around `rasterize`), the post render pass with
`drawPost` and the UI draw, `vkEndCommandBuffer` and `submitFrame`. -/
theorem C5_frame_protocol_order (gui : Option GuiInput) (s : State) :
    ∃ ui, (∀ e ∈ ui, e.isFrameWork = false)
      ∧ (frame (.visible gui) s).log
          = s.log ++ ui
            ++ [.call .prepareFrame, .call .vkBeginCommandBuffer, .call .updateUniformBuffer]
            ++ (if (frame (.visible gui) s).useRaytracer = true then
                  [.raytrace (frame (.visible gui) s).clearColor]
                else
                  [.vkCmdBeginRenderPass .offscreen, .call .rasterize, .call .vkCmdEndRenderPass])
            ++ [.vkCmdBeginRenderPass .post, .call .drawPost, .call .imguiRender,
                .call .imguiRenderDrawData, .call .vkCmdEndRenderPass,
                .call .vkEndCommandBuffer, .call .submitFrame] := by
  refine ⟨[.call .glfwPollEvents] ++ guiCalls gui, ?_, ?_⟩
  · intro e he
    rcases List.mem_append.mp he with he | he
    · simp at he
      subst he
      rfl
    · exact (isUiCall_facts e (guiCalls_ui gui e he)).2.2.1
  · obtain ⟨h1, h2, _⟩ := frame_visible_locals gui s
    rw [h1, h2, frame_visible_log]
    simp [renderCalls, scenePassCalls]

/-- C6: start in ray-tracing mode; press the checkbox in one frame, let any number of frames
pass in which no control reports a change, press the checkbox again.  Then the first press
switches to raster mode with one `resetFrame`, the frames in between stay in raster mode and
call no `resetFrame`, the second press switches back with one more `resetFrame` (two in all),
and from the first press up to the second no `raytrace` is called. -/
theorem C6_mode_round_trip (s : State) (g1 g2 : GuiInput) (mid : List FrameInput)
    (hs : s.useRaytracer = true) (h1 : g1.onlyCheckbox = true) (h2 : g2.onlyCheckbox = true)
    (hmid : ∀ f ∈ mid, f.quiet = true) :
    mainLoop ([.visible (some g1)] ++ mid ++ [.visible (some g2)]) s
        = frame (.visible (some g2)) (mainLoop mid (frame (.visible (some g1)) s))
      ∧ (frame (.visible (some g1)) s).useRaytracer = false
      ∧ (mainLoop mid (frame (.visible (some g1)) s)).useRaytracer = false
      ∧ (frame (.visible (some g2)) (mainLoop mid (frame (.visible (some g1)) s))).useRaytracer
          = true
      ∧ resets (frame (.visible (some g1)) s).log = resets s.log + 1
      ∧ resets (mainLoop mid (frame (.visible (some g1)) s)).log = resets s.log + 1
      ∧ resets (frame (.visible (some g2)) (mainLoop mid (frame (.visible (some g1)) s))).log
          = resets s.log + 2
      ∧ ∃ calls, (mainLoop mid (frame (.visible (some g1)) s)).log = s.log ++ calls
          ∧ ∀ e ∈ calls, e.isRaytrace = false := by
  obtain ⟨a1, a2⟩ := toggle_frame g1 s h1
  rw [hs] at a1
  have a1f : (frame (.visible (some g1)) s).useRaytracer = false := a1
  obtain ⟨b1, b2, calls, b3, b4⟩ := quiet_loop mid (frame (.visible (some g1)) s) hmid a1f
  obtain ⟨c1, c2⟩ := toggle_frame g2 (mainLoop mid (frame (.visible (some g1)) s)) h2
  refine ⟨?_, a1f, b1, ?_, a2, ?_, ?_, frameCalls (.visible (some g1)) s ++ calls, ?_, ?_⟩
  · rw [mainLoop_append, mainLoop_append]
    rfl
  · rw [c1, b1]
    rfl
  · rw [b2, a2]
  · rw [c2, b2, a2]
  · rw [b3, frame_log, List.append_assoc]
  · intro e he
    rcases List.mem_append.mp he with he | he
    · exact frameCalls_raster_noRaytrace _ s a1f e he
    · exact b4 e he

/-- C6, at `sampleState` with a minimized frame, a frame without GUI and an untouched panel
between the two presses. -/
theorem C6_witness :
    sampleState.useRaytracer = true
      ∧ toggleGui.onlyCheckbox = true
      ∧ (∀ f ∈ [FrameInput.minimized, .visible none, .visible (some idleGui)], f.quiet = true)
      ∧ resets (frame (.visible (some toggleGui))
            (mainLoop [FrameInput.minimized, .visible none, .visible (some idleGui)]
              (frame (.visible (some toggleGui)) sampleState))).log
          = resets sampleState.log + 2 :=
  ⟨rfl, by decide, by decide,
    (C6_mode_round_trip sampleState toggleGui toggleGui
      [FrameInput.minimized, .visible none, .visible (some idleGui)] rfl (by decide)
      (by decide) (by decide)).2.2.2.2.2.2.1⟩

/-- C7: when `createTopLevelAS` is called the instance list holds the instances left by model
loading followed by 2000 more, so `k + 2000` for `k` loaded ones; the top-level structure is
built over that list, and after any number of loop iterations, and after cleanup, the list is
still the same and the recorded top-level count equals its length. -/
theorem C7_instance_count_fixed_after_top_level_build (env : Env) (frames : List FrameInput) :
    (beforeTopLevelAS env).helloVk.m_instances.length = env.loaded.m_instances.length + 2000
      ∧ (List.take env.loaded.m_instances.length (beforeTopLevelAS env).helloVk.m_instances
          = env.loaded.m_instances)
      ∧ (createTopLevelAS (beforeTopLevelAS env)).topLevelInstanceCount
          = some (env.loaded.m_instances.length + 2000)
      ∧ (mainLoop frames (startup env)).helloVk.m_instances
          = (beforeTopLevelAS env).helloVk.m_instances
      ∧ (mainLoop frames (startup env)).topLevelInstanceCount
          = some (mainLoop frames (startup env)).helloVk.m_instances.length
      ∧ (cleanup (mainLoop frames (startup env))).helloVk.m_instances
          = (beforeTopLevelAS env).helloVk.m_instances
      ∧ (cleanup (mainLoop frames (startup env))).topLevelInstanceCount
          = some (cleanup (mainLoop frames (startup env))).helloVk.m_instances.length := by
  have hg := (generateInstances_instances env env.loaded).1
  have hb : (beforeTopLevelAS env).helloVk.m_instances
      = env.loaded.m_instances
          ++ (List.range 2000).map (fun n =>
              ({ objIndex := wusonIndex env.loaded, transform := env.transform n } :
                ObjInstance)) := hg
  have hlen : (beforeTopLevelAS env).helloVk.m_instances.length
      = env.loaded.m_instances.length + 2000 := by
    rw [hb]
    simp
  obtain ⟨l1, l2, _⟩ := mainLoop_locals frames (startup env)
  have hs1 : (startup env).helloVk.m_instances = (beforeTopLevelAS env).helloVk.m_instances :=
    rfl
  have hs2 : (startup env).topLevelInstanceCount
      = some (beforeTopLevelAS env).helloVk.m_instances.length := rfl
  refine ⟨hlen, ?_, ?_, ?_, ?_, ?_, ?_⟩
  · rw [hb]
    simp
  · simp only [createTopLevelAS]
    rw [hlen]
  · rw [l2, hs1]
  · rw [l1, l2, hs2, hs1]
  · simp only [cleanup, State.emitAll]
    rw [l2, hs1]
  · simp only [cleanup, State.emitAll]
    rw [l1, l2, hs2, hs1]

/-- C8: a run of `main` that reaches the cleanup section ends its log with `vkDeviceWaitIdle`,
`destroyResources`, `destroy`, `vkctx.deinit`, `glfwDestroyWindow`, `glfwTerminate` in this
order; none of these calls occurs earlier, and nothing that records or submits a frame comes
after `vkDeviceWaitIdle`. -/
theorem C8_drain_before_destroy (env : Env) (frames : List FrameInput)
    (h : (main env frames).exit = .code 0) :
    ∃ pre, (main env frames).log
        = pre ++ [.call .vkDeviceWaitIdle, .call .destroyResources, .call .destroy,
            .call .vkctxDeinit, .call .glfwDestroyWindow, .call .glfwTerminate]
      ∧ (∀ e ∈ pre, e.isCleanup = false)
      ∧ (∀ e ∈ [Event.call .destroyResources, .call .destroy, .call .vkctxDeinit,
            .call .glfwDestroyWindow, .call .glfwTerminate], e.isFrameWork = false) := by
  have hok : env.glfwInitOk = true ∧ env.vulkanSupported = true ∧ env.compatibleDevices ≠ 0 := by
    by_contra hc
    exact (main_failure_log env frames hc).1 h
  obtain ⟨_, calls, hl, hp⟩ := main_success env frames hok.1 hok.2.1 hok.2.2
  refine ⟨(startup env).log ++ calls, ?_, ?_, by decide⟩
  · rw [hl]
    rfl
  · intro e he
    rcases List.mem_append.mp he with he | he
    · exact (startup_log_facts env e he).2
    · exact (isPlain_facts e (hp e he)).2

/-- C8, at the run of `sampleEnv` with one rendered frame. -/
theorem C8_witness :
    (main sampleEnv [.visible none]).exit = .code 0
      ∧ ∃ pre, (main sampleEnv [.visible none]).log
          = pre ++ [.call .vkDeviceWaitIdle, .call .destroyResources, .call .destroy,
              .call .vkctxDeinit, .call .glfwDestroyWindow, .call .glfwTerminate]
        ∧ (∀ e ∈ pre, e.isCleanup = false)
        ∧ (∀ e ∈ [Event.call .destroyResources, .call .destroy, .call .vkctxDeinit,
              .call .glfwDestroyWindow, .call .glfwTerminate], e.isFrameWork = false) :=
  ⟨rfl, C8_drain_before_destroy sampleEnv [.visible none] rfl⟩

/-- C9: whenever a run of `main` calls `raytrace`, the calls before it contain
`createBottomLevelAS`, `createTopLevelAS`, `createRtPipeline` and `createRtShaderBindingTable`
exactly once each and in this order, and so does the whole log of the run. -/
theorem C9_raytrace_after_rt_setup (env : Env) (frames : List FrameInput) (pre post : List Event)
    (c : Vec4) (h : (main env frames).log = pre ++ .raytrace c :: post) :
    pre.filter Event.isRtSetup
        = [.call .createBottomLevelAS, .call .createTopLevelAS, .call .createRtPipeline,
            .call .createRtShaderBindingTable]
      ∧ (main env frames).log.filter Event.isRtSetup
        = [.call .createBottomLevelAS, .call .createTopLevelAS, .call .createRtPipeline,
            .call .createRtShaderBindingTable] := by
  have hmem : Event.raytrace c ∈ (main env frames).log := by
    rw [h]
    simp
  have hok : env.glfwInitOk = true ∧ env.vulkanSupported = true ∧ env.compatibleDevices ≠ 0 := by
    by_contra hc
    have := (main_failure_log env frames hc).2.1 _ hmem
    simp [Event.isRaytrace] at this
  obtain ⟨_, calls, hl, hp⟩ := main_success env frames hok.1 hok.2.1 hok.2.2
  have hcalls : calls.filter Event.isRtSetup = [] := by
    rw [List.filter_eq_nil_iff]
    intro e he
    simp [(isPlain_facts e (hp e he)).1]
  have hclean : cleanupCalls.filter Event.isRtSetup = [] := by decide
  have hrest : (calls ++ cleanupCalls).filter Event.isRtSetup = [] := by
    rw [List.filter_append, hcalls, hclean]
    rfl
  have hwhole : (main env frames).log.filter Event.isRtSetup
      = [.call .createBottomLevelAS, .call .createTopLevelAS, .call .createRtPipeline,
          .call .createRtShaderBindingTable] := by
    rw [hl, List.append_assoc, List.filter_append, hrest, startup_log_filter]
    rfl
  refine ⟨?_, hwhole⟩
  rw [hl, List.append_assoc] at h
  rcases List.append_eq_append_iff.mp h with ⟨a, ha1, ha2⟩ | ⟨a, ha1, ha2⟩
  · -- `pre` ends inside what follows the start-up calls
    have hsub : a.filter Event.isRtSetup = [] := by
      rw [List.filter_eq_nil_iff]
      intro e he
      have hmem2 : e ∈ calls ++ cleanupCalls := by
        rw [ha2]
        exact List.mem_append_left _ he
      have := (List.filter_eq_nil_iff.mp hrest) e hmem2
      exact this
    rw [ha1, List.filter_append, hsub, startup_log_filter]
    rfl
  · -- the start-up calls would contain the `raytrace`
    cases a with
    | nil =>
      simp only [List.append_nil] at ha1
      rw [← ha1, startup_log_filter]
    | cons x xs =>
      have hx : Event.raytrace c ∈ (startup env).log := by
        rw [ha1]
        simp only [List.cons_append, List.cons.injEq] at ha2
        rw [← ha2.1]
        simp
      have := (startup_log_facts env _ hx).1
      simp [Event.isRaytrace] at this

/-- C9, at the `raytrace` of the one frame of the run of `sampleEnv`. -/
theorem C9_witness :
    (main sampleEnv [.visible none]).log
        = sampleBefore ++ .raytrace ⟨1, 1, 1, 1⟩ :: sampleAfter
      ∧ (sampleBefore.filter Event.isRtSetup
          = [.call .createBottomLevelAS, .call .createTopLevelAS, .call .createRtPipeline,
              .call .createRtShaderBindingTable]
        ∧ (main sampleEnv [.visible none]).log.filter Event.isRtSetup
          = [.call .createBottomLevelAS, .call .createTopLevelAS, .call .createRtPipeline,
              .call .createRtShaderBindingTable]) :=
  ⟨rfl, C9_raytrace_after_rt_setup sampleEnv [.visible none] sampleBefore sampleAfter
    ⟨1, 1, 1, 1⟩ rfl⟩

/-- C10: provided at least one model is loaded (and no more than the `int` index can count),
the instance loop appends exactly 2000 instances, each with `objIndex` equal to the number of
loaded models minus one, which is a valid index into the model list; the model list itself is
not changed by the loop, and the last `loadModel` call before it names `cube_multi.obj`. -/
theorem C10_generated_instances_index_last_model (env : Env)
    (h1 : 1 ≤ env.loaded.m_objModel.length) (h2 : env.loaded.m_objModel.length ≤ 2 ^ 31) :
    ∃ generated,
      (loadScene env).helloVk.m_instances = env.loaded.m_instances ++ generated
        ∧ generated.length = 2000
        ∧ (loadScene env).helloVk.m_objModel = env.loaded.m_objModel
        ∧ loadCalls.getLast? = some (.loadModel .cubeMulti)
        ∧ ∀ inst ∈ generated,
            inst.objIndex = ((loadScene env).helloVk.m_objModel.length : Int) - 1
              ∧ 0 ≤ inst.objIndex
              ∧ inst.objIndex < ((loadScene env).helloVk.m_objModel.length : Int) := by
  obtain ⟨hi, hm⟩ := generateInstances_instances env env.loaded
  have hm2 : (loadScene env).helloVk.m_objModel = env.loaded.m_objModel := hm
  refine ⟨_, hi, by simp, hm2, rfl, ?_⟩
  intro inst hinst
  simp only [List.mem_map] at hinst
  obtain ⟨n, _, rfl⟩ := hinst
  rw [hm2]
  have hw := wusonIndex_eq env.loaded h1 h2
  dsimp only
  rw [hw]
  omega

/-- C10, at `sampleEnv`, where five models are loaded. -/
theorem C10_witness :
    1 ≤ sampleEnv.loaded.m_objModel.length
      ∧ sampleEnv.loaded.m_objModel.length ≤ 2 ^ 31
      ∧ ∃ generated,
          (loadScene sampleEnv).helloVk.m_instances = sampleEnv.loaded.m_instances ++ generated
            ∧ generated.length = 2000
            ∧ (loadScene sampleEnv).helloVk.m_objModel = sampleEnv.loaded.m_objModel
            ∧ loadCalls.getLast? = some (.loadModel .cubeMulti)
            ∧ ∀ inst ∈ generated,
                inst.objIndex = ((loadScene sampleEnv).helloVk.m_objModel.length : Int) - 1
                  ∧ 0 ≤ inst.objIndex
                  ∧ inst.objIndex < ((loadScene sampleEnv).helloVk.m_objModel.length : Int) :=
  ⟨by decide, by decide, C10_generated_instances_index_last_model sampleEnv (by decide) (by decide)⟩

end VkRaytracer
